import Mathlib

/-!
# Verification of the lmd-notifier monitoring loop

Shallow embedding of `src/index.ts` (the variant the spec's line references
point at: the one with `getRandomizedInterval`, the `log`/`logError` helpers
and the `main` loop with an inner `try`/`catch`).  Asynchronous effects that
can reject are modelled as `Except String` oracle values supplied by an
environment record; `Promise.allSettled` is a total function on a list of
`Except` results; `Math.random` is an explicit rational argument in `[0, 1)`.
-/

deriving instance DecidableEq for Except

namespace LmdNotifier

/-- One entry of the `USERS_JSON` recipient list (`interface User`).
JavaScript truthiness of the validation (`!user.field`) is modelled by
treating the empty string as the falsy / missing value. -/
structure User where
  telegram_user_id : String
  embassy_id : String
  embassy_password : String
deriving DecidableEq, Repr

/-- JavaScript `haystack.includes(needle)`: `needle` occurs contiguously in
`haystack`. -/
def strIncludes (haystack needle : String) : Bool :=
  haystack.data.tails.any (fun suffix => needle.data.isPrefixOf suffix)

/-- `needle` occurs contiguously inside `haystack`, as a proposition on
strings (used to state what a built message embeds). -/
def occursIn (needle haystack : String) : Prop :=
  ∃ p q : String, haystack = p ++ needle ++ q

/-- The availability message built per user in `notifyAllUsers`:
`[header, credentials block, url].join('\n\n')` with the user's own
`embassy_id` and `embassy_password` interpolated. -/
def availabilityMessage (user : User) : String :=
  "🚨 Appointment slot available for LEY MEMORIA DEMOCRATICA!" ++ "\n\n" ++
    ("Username: <code>" ++ user.embassy_id ++ "</code>\nPassword: <code>" ++
      user.embassy_password ++ "</code>") ++ "\n\n" ++
    "URL: https://tinyurl.com/4jux82ry"

/-- The startup message built per user in `notifyStartup`; the interval is
interpolated from the raw `SCRAPE_INTERVAL_MINUTES` string. -/
def startupMessage (scrapeIntervalMinutes : String) : String :=
  "🤖 LMD Notifier is now running!" ++ "\n\n" ++
    ("Monitoring appointment slots every " ++ scrapeIntervalMinutes ++ " minutes.") ++ "\n\n" ++
    "You will be notified when LEY MEMORIA DEMOCRATICA appointments become available."

/-- The error message built per user in `notifyError`, embedding the error
string. -/
def errorMessage (error : String) : String :=
  "⚠️ LMD Notifier encountered an error" ++ "\n\n" ++
    ("Error: " ++ error) ++ "\n\n" ++
    "The notifier will continue trying to monitor appointments."

/-- The JSON body `sendTelegramNotification` posts to the Telegram API. -/
structure TelegramRequest where
  chat_id : String
  text : String
  parse_mode : String
deriving DecidableEq, Repr

/-- Behaviour of one `fetch` call to the Telegram API: either the promise
resolves to a response (`ok` is the 2xx flag, `bodyText` what
`response.text()` yields), or it rejects with a transport error. -/
inductive FetchOutcome where
  | resp (ok : Bool) (bodyText : String)
  | transportError (e : String)
deriving DecidableEq, Repr

/-- Observable behaviour of one `sendTelegramNotification` call: the request
it posted and how the call itself finished (`.error e` means the async
function rejected with `e`). -/
structure SendRun where
  request : TelegramRequest
  result : Except String Unit
deriving DecidableEq, Repr

/-- `sendTelegramNotification(message, chatId)`: posts the request, then
checks `response.ok`; a non-2xx response is only logged.  There is no
`try`/`catch` around the `await fetch`, so a rejected `fetch` rejects the
whole call. -/
def sendTelegramNotification (message chatId : String) (fetch : FetchOutcome) : SendRun :=
  { request := { chat_id := chatId, text := message, parse_mode := "HTML" }
    result :=
      match fetch with
      | .transportError e => .error e
      | .resp _ _ => .ok () }

/-- One settled entry of a `Promise.allSettled` result. -/
inductive Settled (α : Type) where
  | fulfilled (value : α)
  | rejected (reason : String)
deriving DecidableEq, Repr

/-- `Promise.allSettled`: waits for every promise and never rejects. -/
def allSettled {α : Type} (promises : List (Except String α)) : List (Settled α) :=
  promises.map (fun p =>
    match p with
    | .ok a => .fulfilled a
    | .error e => .rejected e)

/-- Observable behaviour of one fan-out call (`notifyAllUsers`,
`notifyStartup` or `notifyError`): the per-recipient send attempts, and the
settled results the surrounding `await Promise.allSettled` joined on. -/
structure NotifyRun where
  attempts : List SendRun
  settled : List (Settled Unit)
deriving DecidableEq, Repr

/-- `notifyAllUsers()`: one `sendTelegramNotification` per user with that
user's availability message, joined with `Promise.allSettled`.  The
per-recipient `fetch` behaviour is an oracle keyed by the user. -/
def notifyAllUsers (users : List User) (fetch : User → FetchOutcome) : NotifyRun :=
  let attempts := users.map (fun user =>
    sendTelegramNotification (availabilityMessage user) user.telegram_user_id (fetch user))
  { attempts := attempts, settled := allSettled (attempts.map (fun a => a.result)) }

/-- `notifyStartup()`: same fan-out shape with the startup message. -/
def notifyStartup (users : List User) (scrapeIntervalMinutes : String)
    (fetch : User → FetchOutcome) : NotifyRun :=
  let attempts := users.map (fun user =>
    sendTelegramNotification (startupMessage scrapeIntervalMinutes) user.telegram_user_id
      (fetch user))
  { attempts := attempts, settled := allSettled (attempts.map (fun a => a.result)) }

/-- `notifyError(error)`: same fan-out shape with the error message. -/
def notifyError (users : List User) (error : String) (fetch : User → FetchOutcome) : NotifyRun :=
  let attempts := users.map (fun user =>
    sendTelegramNotification (errorMessage error) user.telegram_user_id (fetch user))
  { attempts := attempts, settled := allSettled (attempts.map (fun a => a.result)) }

/-- The fixed user-agent pool. -/
def USER_AGENTS : List String :=
  ["Mozilla/5.0 (Macintosh; Intel Mac OS X 10_15_7) AppleWebKit/537.36 (KHTML, like Gecko) Chrome/122.0.0.0 Safari/537.36",
   "Mozilla/5.0 (Windows NT 10.0; Win64; x64) AppleWebKit/537.36 (KHTML, like Gecko) Chrome/122.0.0.0 Safari/537.36",
   "Mozilla/5.0 (X11; Linux x86_64) AppleWebKit/537.36 (KHTML, like Gecko) Chrome/122.0.0.0 Safari/537.36",
   "Mozilla/5.0 (Macintosh; Intel Mac OS X 10_15_7) AppleWebKit/605.1.15 (KHTML, like Gecko) Version/17.3.1 Safari/605.1.15",
   "Mozilla/5.0 (Windows NT 10.0; Win64; x64) AppleWebKit/537.36 (KHTML, like Gecko) Chrome/122.0.0.0 Safari/537.36 Edg/122.0.0.0",
   "Mozilla/5.0 (Macintosh; Intel Mac OS X 10_15_7) AppleWebKit/537.36 (KHTML, like Gecko) Chrome/122.0.0.0 Safari/537.36 OPR/108.0.0.0"]

/-- `getRandomUserAgent()`: `USER_AGENTS[Math.floor(Math.random() * length)]`. -/
def getRandomUserAgent (rand : ℚ) : String :=
  USER_AGENTS.getD (Int.toNat ⌊rand * (USER_AGENTS.length : ℚ)⌋) ""

/-- Oracle for the awaited browser operations of one `checkAppointments`
call, in source order.  Each field is how that `await` finishes.  The
synchronous `page.on('dialog', ...)` registration cannot reject and needs no
field; the dialog handler catches its own errors. -/
structure ProbeEnv where
  launch : Except String Unit
  getPage : Except String Unit
  setNavTimeout : Except String Unit
  setPageTimeout : Except String Unit
  setUserAgent : Except String Unit
  setHeaders : Except String Unit
  goto : Except String Unit
  waitCaptcha : Except String Unit
  clickCaptcha : Except String Unit
  waitServices : Except String Unit
  extractServicesText : Except String String
  close : Except String Unit
deriving DecidableEq, Repr

/-- The body of the post-launch `try` block of `checkAppointments`: page
setup, navigation, interstitial click, extraction, then the
`servicesText.includes('LEY MEMORIA')` test. -/
def probeSteps (env : ProbeEnv) : Except String Bool := do
  let _ ← env.getPage
  let _ ← env.setNavTimeout
  let _ ← env.setPageTimeout
  let _ ← env.setUserAgent
  let _ ← env.setHeaders
  let _ ← env.goto
  let _ ← env.waitCaptcha
  let _ ← env.clickCaptcha
  let _ ← env.waitServices
  let servicesText ← env.extractServicesText
  pure (strIncludes servicesText "LEY MEMORIA")

/-- Observable behaviour of one `checkAppointments()` call: how the call
finished (`.ok b` = returned `b`, `.error e` = rejected with `e`), how many
browser sessions were launched, and how many `browser.close()` calls were
made. -/
structure ProbeRun where
  result : Except String Bool
  launches : Nat
  closeAttempts : Nat
deriving DecidableEq, Repr

/-- `checkAppointments()`.  A launch failure is logged and rethrown before
the `try`/`catch`/`finally` over the page work is entered, so no close is
attempted and no session exists.  After a successful launch: any error from
the steps is caught and turned into `return false`; the `finally` then runs
`await browser.close()`, whose own rejection replaces the pending result. -/
def checkAppointments (env : ProbeEnv) : ProbeRun :=
  match env.launch with
  | .error e => { result := .error e, launches := 0, closeAttempts := 0 }
  | .ok _ =>
    let caught : Except String Bool :=
      match probeSteps env with
      | .ok b => .ok b
      | .error _ => .ok false
    { result :=
        match env.close with
        | .ok _ => caught
        | .error e => .error e
      launches := 1
      closeAttempts := 1 }

/-- JavaScript `Math.round`: round half toward positive infinity. -/
def jsRound (x : ℚ) : ℤ := ⌊x + 0.5⌋

/-- `getRandomizedInterval()`: `SCRAPE_INTERVAL_MINUTES` minutes in
milliseconds, plus a uniform offset of up to ±20 %, rounded.
`Math.random()` is the explicit `rand` argument. -/
def getRandomizedInterval (scrapeIntervalMinutes : ℚ) (rand : ℚ) : ℤ :=
  let baseInterval := scrapeIntervalMinutes * 60 * 1000
  let variation := baseInterval * 0.2
  let randomOffset := (rand - 0.5) * 2 * variation
  jsRound (baseInterval + randomOffset)

/-- Environment behaviour for one iteration of the `while (true)` loop in
`main`: the probe's browser oracle, the per-recipient Telegram `fetch`
behaviour for whichever fan-out this cycle performs, and the `Math.random()`
value `getRandomizedInterval` draws. -/
structure CycleEnv where
  probe : ProbeEnv
  notifFetch : User → FetchOutcome
  rand : ℚ

/-- Observable behaviour of one iteration of the `main` loop.
`hygieneRuns` counts invocations of an orphan-browser-process cleanup step;
the source contains no such call on any path, so the translation records the
count each branch actually performs.  `escaped` is the exception, if any,
that leaves the iteration (which would reject `main` and reach the
process-exiting top-level `catch`); the iteration's own `try`/`catch`
handles every rejection of `checkAppointments`, and the fan-outs join on
`Promise.allSettled`, so every branch returns normally. -/
structure CycleRun where
  probeRun : ProbeRun
  availabilityNotifs : List SendRun
  errorNotifs : List SendRun
  hygieneRuns : Nat
  waitMs : ℤ
  escaped : Option String
  deriving Repr

/-- One iteration of the `while (true)` body in `main`:
`try { checkAppointments; if found notifyAllUsers; wait jittered interval }`
`catch { notifyError(message); wait 60000 }`. -/
def mainCycle (users : List User) (scrapeIntervalMinutes : ℚ) (env : CycleEnv) : CycleRun :=
  let probeRun := checkAppointments env.probe
  match probeRun.result with
  | .ok available =>
    { probeRun := probeRun
      availabilityNotifs :=
        if available then (notifyAllUsers users env.notifFetch).attempts else []
      errorNotifs := []
      hygieneRuns := 0
      waitMs := getRandomizedInterval scrapeIntervalMinutes env.rand
      escaped := none }
  | .error e =>
    { probeRun := probeRun
      availabilityNotifs := []
      errorNotifs := (notifyError users e env.notifFetch).attempts
      hygieneRuns := 0
      waitMs := 60000
      escaped := none }

/-- Observable behaviour of the part of `main` before the loop: the startup
fan-out.  `hygieneRuns` again counts orphan-process cleanup invocations; the
source performs none before entering the loop. -/
structure StartupRun where
  startupNotifs : List SendRun
  hygieneRuns : Nat
  deriving Repr

/-- The pre-loop part of `main()`: `await notifyStartup()` and nothing else
with observable effect. -/
def mainStartup (users : List User) (scrapeIntervalMinutes : String)
    (fetch : User → FetchOutcome) : StartupRun :=
  { startupNotifs := (notifyStartup users scrapeIntervalMinutes fetch).attempts
    hygieneRuns := 0 }

/-- State of the process after some number of loop iterations: still looping
with the history of completed cycles, or exited with a code.  The only exit
after the loop has started would come from an exception escaping an
iteration, which rejects `main` and reaches the top-level
`main().catch(... process.exit(1))`. -/
inductive MainState where
  | looping (cycles : List CycleRun)
  | exited (code : Nat) (cycles : List CycleRun)
  deriving Repr

/-- Run `fuel` iterations of the `main` loop, each driven by its own
environment behaviour. -/
def runMain (users : List User) (scrapeIntervalMinutes : ℚ) (envs : Nat → CycleEnv) :
    Nat → MainState
  | 0 => .looping []
  | n + 1 =>
    match runMain users scrapeIntervalMinutes envs n with
    | .exited code cycles => .exited code cycles
    | .looping cycles =>
      let cycle := mainCycle users scrapeIntervalMinutes (envs n)
      match cycle.escaped with
      | some _ => .exited 1 (cycles ++ [cycle])
      | none => .looping (cycles ++ [cycle])

/-- Result of `JSON.parse(USERS_JSON)`, abstracted: the parse throws, yields
a non-array value, or yields an array of user records (a missing or falsy
field is modelled as the empty string). -/
inductive ParseResult where
  | parseFailure (e : String)
  | nonArray
  | array (users : List User)
  deriving Repr

/-- The module-level `USERS_JSON` validation: parse, require a non-empty
array, require every field truthy; any failure is rethrown wrapped as
`Invalid USERS_JSON format: ...`. -/
def validateUsers : ParseResult → Except String (List User)
  | .parseFailure e => .error ("Invalid USERS_JSON format: " ++ e)
  | .nonArray =>
    .error "Invalid USERS_JSON format: Error: USERS_JSON must be a non-empty array"
  | .array users =>
    if users.isEmpty then
      .error "Invalid USERS_JSON format: Error: USERS_JSON must be a non-empty array"
    else if users.any (fun user =>
        user.telegram_user_id = "" || user.embassy_id = "" || user.embassy_password = "") then
      .error "Invalid USERS_JSON format: Error: Each user must have telegram_user_id, embassy_id, and embassy_password"
    else .ok users

/-- How process startup ends: `fatal exitCode notifyAttempts` means the
process terminated with that exit status after that many fatal-notification
attempts; `entersLoop` means module evaluation succeeded and `main`'s loop
is reached. -/
inductive StartupResult where
  | fatal (exitCode : Nat) (notifyAttempts : Nat)
  | entersLoop (users : List User)
  deriving Repr

/-- Module evaluation up to entering `main`'s loop.  A falsy
`TELEGRAM_BOT_TOKEN` or `USERS_JSON` (empty string models missing), or a
`USERS_JSON` validation failure, throws during module evaluation: `main` is
never invoked, the `main().catch` handler is never installed, so no
notification is attempted and the runtime exits with the uncaught-exception
status 1. -/
def startProcess (telegramBotToken usersJson : String) (parsed : ParseResult) :
    StartupResult :=
  if telegramBotToken = "" || usersJson = "" then .fatal 1 0
  else
    match validateUsers parsed with
    | .error _ => .fatal 1 0
    | .ok users => .entersLoop users

/-- A sample recipient (taken from the README's example configuration). -/
def sampleUser : User :=
  { telegram_user_id := "410079790", embassy_id := "user1@example.com",
    embassy_password := "password1" }

/-- A second sample recipient. -/
def sampleUser2 : User :=
  { telegram_user_id := "987654321", embassy_id := "user2@example.com",
    embassy_password := "password2" }

/-- Telegram `fetch` oracle where every delivery resolves 2xx. -/
def fetchAllOk : User → FetchOutcome := fun _ => FetchOutcome.resp true "ok"

/-- Probe environment in which every browser operation succeeds and the
extracted services text carries no marker. -/
def probeEnvAllOk : ProbeEnv :=
  { launch := .ok (), getPage := .ok (), setNavTimeout := .ok (),
    setPageTimeout := .ok (), setUserAgent := .ok (), setHeaders := .ok (),
    goto := .ok (), waitCaptcha := .ok (), clickCaptcha := .ok (),
    waitServices := .ok (), extractServicesText := .ok "No appointments here",
    close := .ok () }

/-- Probe environment in which navigation exceeds the configured timeout. -/
def probeEnvTimeout : ProbeEnv :=
  { probeEnvAllOk with goto := .error "Navigation timeout of 60000 ms exceeded" }

/-- Probe environment in which the launch step itself fails. -/
def probeEnvLaunchFail : ProbeEnv :=
  { probeEnvAllOk with launch := .error "Failed to launch the browser process!" }

/-- Cycle environment built over the navigation-timeout probe. -/
def cycleEnvTimeout : CycleEnv :=
  { probe := probeEnvTimeout, notifFetch := fetchAllOk, rand := 1 / 2 }

/-- Cycle environment built over the failed-launch probe. -/
def cycleEnvLaunchFail : CycleEnv :=
  { probe := probeEnvLaunchFail, notifFetch := fetchAllOk, rand := 1 / 2 }

theorem occursIn_intro {needle haystack : String} (p q : List Char)
    (h : haystack.data = p ++ (needle.data ++ q)) : occursIn needle haystack := by
  refine ⟨String.mk p, String.mk q, String.ext ?_⟩
  simp [String.data_append, h]

theorem occursIn_errorMessage (e : String) : occursIn e (errorMessage e) := by
  apply occursIn_intro
    ("⚠️ LMD Notifier encountered an error".data ++ "\n\n".data ++ "Error: ".data)
    ("\n\n".data ++ "The notifier will continue trying to monitor appointments.".data)
  simp [errorMessage, String.data_append, List.append_assoc]

theorem occursIn_availabilityMessage_id (u : User) :
    occursIn u.embassy_id (availabilityMessage u) := by
  apply occursIn_intro
    ("🚨 Appointment slot available for LEY MEMORIA DEMOCRATICA!".data ++ "\n\n".data ++
      "Username: <code>".data)
    ("</code>\nPassword: <code>".data ++ u.embassy_password.data ++ "</code>".data ++
      "\n\n".data ++ "URL: https://tinyurl.com/4jux82ry".data)
  simp [availabilityMessage, String.data_append, List.append_assoc]

theorem occursIn_availabilityMessage_password (u : User) :
    occursIn u.embassy_password (availabilityMessage u) := by
  apply occursIn_intro
    ("🚨 Appointment slot available for LEY MEMORIA DEMOCRATICA!".data ++ "\n\n".data ++
      "Username: <code>".data ++ u.embassy_id.data ++ "</code>\nPassword: <code>".data)
    ("</code>".data ++ "\n\n".data ++ "URL: https://tinyurl.com/4jux82ry".data)
  simp [availabilityMessage, String.data_append, List.append_assoc]

theorem mainCycle_escaped_none (users : List User) (m : ℚ) (env : CycleEnv) :
    (mainCycle users m env).escaped = none := by
  cases h : (checkAppointments env.probe).result <;> simp [mainCycle, h]

theorem mainCycle_hygiene_zero (users : List User) (m : ℚ) (env : CycleEnv) :
    (mainCycle users m env).hygieneRuns = 0 := by
  cases h : (checkAppointments env.probe).result <;> simp [mainCycle, h]

/-- Claim C4, counterexample: `sendTelegramNotification` does not swallow a
transport error — with a rejecting `fetch`, the call itself rejects with the
same error instead of returning normally, contradicting `never raises to its
caller: both a non-2xx response and a transport error are logged and
swallowed`. -/
theorem claim4_counterexample :
    (sendTelegramNotification "hello" "410079790"
        (.transportError "fetch failed: ECONNRESET")).result =
      .error "fetch failed: ECONNRESET" ∧
    (sendTelegramNotification "hello" "410079790"
        (.transportError "fetch failed: ECONNRESET")).result ≠ .ok () :=
  ⟨rfl, by decide⟩

/-- Claim C4, amended: for every recipient and message, a non-2xx response
(any resolved response, whatever its status flag) is logged and swallowed
and the call returns normally; but a transport error (a rejected `fetch`)
propagates to the caller unchanged.  The request posted is the Telegram JSON
body for that recipient and message. -/
theorem claim4_send_behaviour (message chatId bodyText e : String) (ok : Bool) :
    (sendTelegramNotification message chatId (.resp ok bodyText)).result = .ok () ∧
    (sendTelegramNotification message chatId (.transportError e)).result = .error e ∧
    (sendTelegramNotification message chatId (.transportError e)).request =
      { chat_id := chatId, text := message, parse_mode := "HTML" } :=
  ⟨rfl, rfl, rfl⟩

/-- Claim C6: for every configured base interval of `m` minutes (base
`B = m * 60 * 1000` milliseconds) and every random-source value in `[0, 1)`,
the wait computed by `getRandomizedInterval` lies in the closed interval
`[0.8 * B, 1.2 * B]`. -/
theorem claim6_jitter_bounds (m : ℕ) (r : ℚ) (h0 : 0 ≤ r) (h1 : r < 1) :
    (4 / 5 : ℚ) * ((m : ℚ) * 60 * 1000) ≤ ((getRandomizedInterval (m : ℚ) r : ℤ) : ℚ) ∧
    ((getRandomizedInterval (m : ℚ) r : ℤ) : ℚ) ≤ (6 / 5 : ℚ) * ((m : ℚ) * 60 * 1000) := by
  have hm : (0 : ℚ) ≤ (m : ℚ) := Nat.cast_nonneg m
  have hrm : (0 : ℚ) ≤ r * (m : ℚ) := mul_nonneg h0 hm
  have hrm1 : (0 : ℚ) ≤ (1 - r) * (m : ℚ) := mul_nonneg (by linarith) hm
  unfold getRandomizedInterval jsRound
  constructor
  · have hle : ((48000 * (m : ℤ) : ℤ) : ℚ) ≤
        (m : ℚ) * 60 * 1000 + (r - 0.5) * 2 * ((m : ℚ) * 60 * 1000 * 0.2) + 0.5 := by
      push_cast
      nlinarith [hrm]
    have hfloor := Int.le_floor.mpr hle
    have hcast : ((⌊(m : ℚ) * 60 * 1000 + (r - 0.5) * 2 * ((m : ℚ) * 60 * 1000 * 0.2) + 0.5⌋ : ℤ) : ℚ) ≥
        ((48000 * (m : ℤ) : ℤ) : ℚ) := by exact_mod_cast hfloor
    push_cast at hcast ⊢
    linarith
  · have hlt : (m : ℚ) * 60 * 1000 + (r - 0.5) * 2 * ((m : ℚ) * 60 * 1000 * 0.2) + 0.5 <
        ((72000 * (m : ℤ) + 1 : ℤ) : ℚ) := by
      push_cast
      nlinarith [hrm1]
    have hfloor := Int.lt_add_one_iff.mp (Int.floor_lt.mpr hlt)
    have hcast : ((⌊(m : ℚ) * 60 * 1000 + (r - 0.5) * 2 * ((m : ℚ) * 60 * 1000 * 0.2) + 0.5⌋ : ℤ) : ℚ) ≤
        ((72000 * (m : ℤ) : ℤ) : ℚ) := by exact_mod_cast hfloor
    push_cast at hcast ⊢
    linarith

/-- Claim C6, witness: with a 10-minute base interval and random value
`1/3`, the hypotheses hold and the computed wait is within the band. -/
theorem claim6_jitter_bounds_witness :
    (0 ≤ (1 / 3 : ℚ) ∧ (1 / 3 : ℚ) < 1) ∧
    ((4 / 5 : ℚ) * (((10 : ℕ) : ℚ) * 60 * 1000) ≤
        ((getRandomizedInterval ((10 : ℕ) : ℚ) (1 / 3) : ℤ) : ℚ) ∧
      ((getRandomizedInterval ((10 : ℕ) : ℚ) (1 / 3) : ℤ) : ℚ) ≤
        (6 / 5 : ℚ) * (((10 : ℕ) : ℚ) * 60 * 1000)) :=
  ⟨⟨by norm_num, by norm_num⟩,
   claim6_jitter_bounds 10 (1 / 3) (by norm_num) (by norm_num)⟩

/-- Claim C7: for every recipient list and every assignment of per-recipient
delivery outcomes, one `notifyAllUsers` call attempts exactly one delivery
per recipient — the posted requests are exactly the per-user availability
requests, independent of how any delivery fares — and the call joins on a
settled result for every attempt before returning. -/
theorem claim7_fanout_exactly_once (users : List User) (fetch : User → FetchOutcome) :
    (notifyAllUsers users fetch).attempts.map (fun a => a.request) =
      users.map (fun user =>
        { chat_id := user.telegram_user_id, text := availabilityMessage user,
          parse_mode := "HTML" }) ∧
    (notifyAllUsers users fetch).attempts.length = users.length ∧
    (notifyAllUsers users fetch).settled.length = users.length := by
  refine ⟨?_, ?_, ?_⟩ <;>
    simp [notifyAllUsers, allSettled, sendTelegramNotification]

/-- Claim C2, counterexample: at process startup no orphan-process cleanup
runs (`hygieneRuns = 0`, not the claimed `exactly once`), and a concrete
cycle that ends with the probe rejecting (launch failure, the only way a
cycle surfaces as `Failed` to the loop) is likewise followed by no
hygiene run. -/
theorem claim2_counterexample :
    (mainStartup [sampleUser] "10" fetchAllOk).hygieneRuns = 0 ∧
    (mainCycle [sampleUser] 10 cycleEnvLaunchFail).probeRun.result =
      .error "Failed to launch the browser process!" ∧
    (mainCycle [sampleUser] 10 cycleEnvLaunchFail).hygieneRuns = 0 ∧
    (0 : Nat) ≠ 1 :=
  ⟨rfl, rfl, rfl, by decide⟩

/-- Claim C2, amended: the program performs no process hygiene at all — no
cleanup of orphaned browser processes runs at startup or after any cycle,
`Failed` or otherwise; after a failed cycle the loop only fans out an error
notice and waits a fixed minute. -/
theorem claim2_no_hygiene (users : List User) (mins : String)
    (fetch : User → FetchOutcome) (m : ℚ) (env : CycleEnv) :
    (mainStartup users mins fetch).hygieneRuns = 0 ∧
    (mainCycle users m env).hygieneRuns = 0 :=
  ⟨rfl, mainCycle_hygiene_zero users m env⟩

/-- Claim C5, counterexample: when the launch step itself fails,
`checkAppointments` rejects without attempting any cleanup — zero
`browser.close()` calls, not the claimed exactly-one teardown with cleanup
still attempted. -/
theorem claim5_counterexample :
    (checkAppointments probeEnvLaunchFail).result =
      .error "Failed to launch the browser process!" ∧
    (checkAppointments probeEnvLaunchFail).closeAttempts = 0 ∧
    (checkAppointments probeEnvLaunchFail).closeAttempts ≠ 1 :=
  ⟨rfl, rfl, by decide⟩

/-- Claim C5, amended: whenever the launch succeeds, exactly one browser
session is created and exactly one `browser.close()` runs before
`checkAppointments` returns, on every exit path including mid-probe
exceptions; when the launch itself fails, the exception propagates with no
session created and no cleanup attempted. -/
theorem claim5_teardown (env : ProbeEnv) :
    (env.launch = .ok () →
      (checkAppointments env).launches = 1 ∧ (checkAppointments env).closeAttempts = 1) ∧
    (∀ e, env.launch = .error e →
      (checkAppointments env).launches = 0 ∧ (checkAppointments env).closeAttempts = 0 ∧
      (checkAppointments env).result = .error e) := by
  constructor
  · intro h
    simp [checkAppointments, h]
  · intro e h
    simp [checkAppointments, h]

/-- Claim C5, witness: on a concrete all-successful environment teardown
runs exactly once, and on a concrete failed-launch environment no teardown
is attempted. -/
theorem claim5_teardown_witness :
    ((checkAppointments probeEnvAllOk).launches = 1 ∧
      (checkAppointments probeEnvAllOk).closeAttempts = 1) ∧
    ((checkAppointments probeEnvLaunchFail).launches = 0 ∧
      (checkAppointments probeEnvLaunchFail).closeAttempts = 0 ∧
      (checkAppointments probeEnvLaunchFail).result =
        .error "Failed to launch the browser process!") :=
  ⟨(claim5_teardown probeEnvAllOk).1 rfl,
   (claim5_teardown probeEnvLaunchFail).2 "Failed to launch the browser process!" rfl⟩

/-- Claim C10: an exception raised after a successful launch (navigation
timeout, selector not found, extraction failure) is caught inside
`checkAppointments`, which returns `false` — indistinguishable from the
no-marker case — so the orchestrator's cycle sends no error notification
and no availability notification and waits the ordinary jittered interval;
only a failure of the launch step itself rejects out of the probe into the
main loop's error branch. -/
theorem claim10_postlaunch_errors_return_false (env : ProbeEnv) (e : String) :
    (env.launch = .ok () → env.close = .ok () → probeSteps env = .error e →
      checkAppointments env =
        { result := .ok false, launches := 1, closeAttempts := 1 } ∧
      ∀ (users : List User) (m : ℚ) (cenv : CycleEnv), cenv.probe = env →
        (mainCycle users m cenv).errorNotifs = [] ∧
        (mainCycle users m cenv).availabilityNotifs = [] ∧
        (mainCycle users m cenv).waitMs = getRandomizedInterval m cenv.rand) ∧
    (env.launch = .error e → (checkAppointments env).result = .error e) := by
  constructor
  · intro hlaunch hclose hsteps
    have hcheck : checkAppointments env =
        { result := .ok false, launches := 1, closeAttempts := 1 } := by
      simp [checkAppointments, hlaunch, hclose, hsteps]
    refine ⟨hcheck, ?_⟩
    intro users m cenv hcenv
    refine ⟨?_, ?_, ?_⟩ <;> simp [mainCycle, hcenv, hcheck]
  · intro hlaunch
    simp [checkAppointments, hlaunch]

/-- Claim C10, witness: on a concrete navigation-timeout environment the
probe returns `false` and the cycle sends nothing; on a concrete
failed-launch environment the probe rejects. -/
theorem claim10_postlaunch_errors_return_false_witness :
    (checkAppointments probeEnvTimeout =
      { result := .ok false, launches := 1, closeAttempts := 1 } ∧
      (mainCycle [sampleUser] 10 cycleEnvTimeout).errorNotifs = [] ∧
      (mainCycle [sampleUser] 10 cycleEnvTimeout).availabilityNotifs = [] ∧
      (mainCycle [sampleUser] 10 cycleEnvTimeout).waitMs =
        getRandomizedInterval 10 cycleEnvTimeout.rand) ∧
    (checkAppointments probeEnvLaunchFail).result =
      .error "Failed to launch the browser process!" := by
  have h := claim10_postlaunch_errors_return_false probeEnvTimeout
    "Navigation timeout of 60000 ms exceeded"
  have h2 := claim10_postlaunch_errors_return_false probeEnvLaunchFail
    "Failed to launch the browser process!"
  obtain ⟨hcheck, hcycle⟩ := h.1 rfl rfl rfl
  exact ⟨⟨hcheck, hcycle [sampleUser] 10 cycleEnvTimeout rfl⟩, h2.2 rfl⟩

/-- Claim C1, counterexample: in a concrete cycle whose navigation exceeds
the configured timeout, the probe result is `false` — the same value as the
no-marker case, not a `Failed("timeout")` outcome — and no error
notification is fanned out, contradicting the claimed conversion of
post-launch exceptions to `Failed(reason)` with an error fan-out. -/
theorem claim1_counterexample :
    (mainCycle [sampleUser] 10 cycleEnvTimeout).probeRun.result = .ok false ∧
    (mainCycle [sampleUser] 10 cycleEnvTimeout).errorNotifs = [] ∧
    (mainCycle [sampleUser] 10 cycleEnvTimeout).probeRun.result ≠
      .error "Navigation timeout of 60000 ms exceeded" :=
  ⟨rfl, rfl, by decide⟩

/-- Claim C1, amended: an exception at the post-launch steps (navigation
timeout included) is caught inside the probe and converted to the `false`
(not-found) result, so the cycle sends no error notification and the loop
continues; only an exception of the launch step itself escapes the probe,
reaches the loop's catch branch as a failed cycle, fans out one error
notification per recipient containing the reason string, waits one minute,
and the loop continues without exiting. -/
theorem claim1_error_paths (users : List User) (m : ℚ) (env : CycleEnv) (e : String) :
    (env.probe.launch = .ok () → env.probe.close = .ok () →
      probeSteps env.probe = .error e →
      (mainCycle users m env).probeRun.result = .ok false ∧
      (mainCycle users m env).errorNotifs = [] ∧
      (mainCycle users m env).escaped = none) ∧
    (env.probe.launch = .error e →
      (mainCycle users m env).probeRun.result = .error e ∧
      (mainCycle users m env).errorNotifs.map (fun sr => sr.request.chat_id) =
        users.map (fun user => user.telegram_user_id) ∧
      (∀ sr ∈ (mainCycle users m env).errorNotifs, occursIn e sr.request.text) ∧
      (mainCycle users m env).waitMs = 60000 ∧
      (mainCycle users m env).escaped = none) := by
  constructor
  · intro hlaunch hclose hsteps
    have hcheck : checkAppointments env.probe =
        { result := .ok false, launches := 1, closeAttempts := 1 } := by
      simp [checkAppointments, hlaunch, hclose, hsteps]
    refine ⟨?_, ?_, ?_⟩ <;> simp [mainCycle, hcheck]
  · intro hlaunch
    have hcheck : checkAppointments env.probe =
        { result := .error e, launches := 0, closeAttempts := 0 } := by
      simp [checkAppointments, hlaunch]
    refine ⟨?_, ?_, ?_, ?_, ?_⟩ <;>
      simp [mainCycle, hcheck, notifyError, sendTelegramNotification]
    intro sr hsr
    exact occursIn_errorMessage e

/-- Claim C1, witness: a concrete navigation-timeout cycle yields `false`
with no error fan-out, and a concrete launch-failure cycle fans out one
error notification to the single recipient with the reason embedded. -/
theorem claim1_error_paths_witness :
    ((mainCycle [sampleUser] 10 cycleEnvTimeout).probeRun.result = .ok false ∧
      (mainCycle [sampleUser] 10 cycleEnvTimeout).errorNotifs = [] ∧
      (mainCycle [sampleUser] 10 cycleEnvTimeout).escaped = none) ∧
    ((mainCycle [sampleUser] 10 cycleEnvLaunchFail).probeRun.result =
        .error "Failed to launch the browser process!" ∧
      (mainCycle [sampleUser] 10 cycleEnvLaunchFail).errorNotifs.map
          (fun sr => sr.request.chat_id) =
        [sampleUser].map (fun user => user.telegram_user_id) ∧
      (∀ sr ∈ (mainCycle [sampleUser] 10 cycleEnvLaunchFail).errorNotifs,
        occursIn "Failed to launch the browser process!" sr.request.text) ∧
      (mainCycle [sampleUser] 10 cycleEnvLaunchFail).waitMs = 60000 ∧
      (mainCycle [sampleUser] 10 cycleEnvLaunchFail).escaped = none) :=
  ⟨(claim1_error_paths [sampleUser] 10 cycleEnvTimeout
      "Navigation timeout of 60000 ms exceeded").1 rfl rfl rfl,
   (claim1_error_paths [sampleUser] 10 cycleEnvLaunchFail
      "Failed to launch the browser process!").2 rfl⟩

/-- Claim C3, counterexample: with the bot token set and an empty recipient
array, startup terminates with exit status 1 after zero fatal-notification
attempts — not the claimed single attempt (the validation error is thrown
during module evaluation, before `main` or its `catch` handler exists). -/
theorem claim3_counterexample :
    startProcess "bot-token" "[]" (ParseResult.array []) = .fatal 1 0 ∧
    (0 : Nat) ≠ 1 :=
  ⟨rfl, by decide⟩

/-- Claim C3, amended: if the recipient list is empty or malformed or
required configuration is missing, the process never enters the monitoring
loop and terminates with the non-zero status 1, making no notification
attempt; entering the loop requires the validation to have succeeded, and
this fatal startup path is the only terminating one. -/
theorem claim3_fatal_startup (bt uj : String) (parsed : ParseResult) :
    (∀ c a, startProcess bt uj parsed = .fatal c a → c ≠ 0 ∧ a = 0) ∧
    ((bt = "" ∨ uj = "" ∨ ∃ err, validateUsers parsed = .error err) →
      startProcess bt uj parsed = .fatal 1 0) ∧
    (∀ users, startProcess bt uj parsed = .entersLoop users →
      bt ≠ "" ∧ uj ≠ "" ∧ validateUsers parsed = .ok users) := by
  refine ⟨?_, ?_, ?_⟩
  · intro c a h
    unfold startProcess at h
    split at h
    · cases h
      exact ⟨one_ne_zero, rfl⟩
    · split at h
      · cases h
        exact ⟨one_ne_zero, rfl⟩
      · cases h
  · rintro (h | h | ⟨err, herr⟩)
    · simp [startProcess, h]
    · simp [startProcess, h]
    · unfold startProcess
      split
      · rfl
      · rw [herr]
  · intro users h
    unfold startProcess at h
    split at h
    · cases h
    · rename_i hcond
      simp only [Bool.or_eq_true, decide_eq_true_eq, not_or] at hcond
      split at h
      · cases h
      · rename_i us heq
        cases h
        exact ⟨hcond.1, hcond.2, heq⟩

/-- Claim C3, witness: a concrete empty recipient array fails validation and
yields the fatal exit with zero notification attempts. -/
theorem claim3_fatal_startup_witness :
    (("bot-token" : String) = "" ∨ ("[]" : String) = "" ∨
      ∃ err, validateUsers (ParseResult.array []) = .error err) ∧
    startProcess "bot-token" "[]" (ParseResult.array []) = .fatal 1 0 := by
  have hv : validateUsers (ParseResult.array []) =
      .error "Invalid USERS_JSON format: Error: USERS_JSON must be a non-empty array" := rfl
  have hpre : (("bot-token" : String) = "" ∨ ("[]" : String) = "" ∨
      ∃ err, validateUsers (ParseResult.array []) = .error err) :=
    Or.inr (Or.inr ⟨_, hv⟩)
  exact ⟨hpre, (claim3_fatal_startup "bot-token" "[]" (ParseResult.array [])).2.1 hpre⟩

/-- Claim C8: in the availability fan-out, the message delivered to each
recipient is exactly the availability message built from that recipient's
own record; it embeds that recipient's `embassy_id` and `embassy_password`,
and it is a function of that recipient's credential fields alone (two users
with the same credentials get the same message), so no other recipient's
data flows into it. -/
theorem claim8_personalized_credentials (users : List User) (fetch : User → FetchOutcome) :
    (notifyAllUsers users fetch).attempts.map
        (fun a => (a.request.chat_id, a.request.text)) =
      users.map (fun user => (user.telegram_user_id, availabilityMessage user)) ∧
    (∀ user : User, occursIn user.embassy_id (availabilityMessage user) ∧
      occursIn user.embassy_password (availabilityMessage user)) ∧
    (∀ u v : User, u.embassy_id = v.embassy_id → u.embassy_password = v.embassy_password →
      availabilityMessage u = availabilityMessage v) := by
  refine ⟨?_, ?_, ?_⟩
  · simp [notifyAllUsers, sendTelegramNotification]
  · intro user
    exact ⟨occursIn_availabilityMessage_id user, occursIn_availabilityMessage_password user⟩
  · intro u v h1 h2
    simp [availabilityMessage, h1, h2]

/-- Claim C8, witness: on a concrete singleton recipient list, the delivered
message is that recipient's own availability message, and the
own-credentials dependence instantiates. -/
theorem claim8_personalized_credentials_witness :
    (notifyAllUsers [sampleUser] fetchAllOk).attempts.map
        (fun a => (a.request.chat_id, a.request.text)) =
      [sampleUser].map (fun user => (user.telegram_user_id, availabilityMessage user)) ∧
    occursIn sampleUser.embassy_password (availabilityMessage sampleUser) ∧
    availabilityMessage sampleUser = availabilityMessage sampleUser :=
  ⟨(claim8_personalized_credentials [sampleUser] fetchAllOk).1,
   ((claim8_personalized_credentials [sampleUser] fetchAllOk).2.1 sampleUser).2,
   (claim8_personalized_credentials [sampleUser] fetchAllOk).2.2 sampleUser sampleUser rfl rfl⟩

/-- Claim C9: a fatal startup exit always carries a non-zero status, and
once the loop has started it never exits — for every number of iterations
and every behaviour of the probe and of the deliveries, the state is still
`looping`. -/
theorem claim9_loop_never_exits :
    (∀ (bt uj : String) (parsed : ParseResult) (c a : Nat),
      startProcess bt uj parsed = .fatal c a → c ≠ 0) ∧
    (∀ (users : List User) (m : ℚ) (envs : Nat → CycleEnv) (fuel : Nat),
      ∃ cycles, runMain users m envs fuel = .looping cycles) := by
  constructor
  · intro bt uj parsed c a h
    unfold startProcess at h
    split at h
    · cases h
      exact one_ne_zero
    · split at h
      · cases h
        exact one_ne_zero
      · cases h
  · intro users m envs fuel
    induction fuel with
    | zero => exact ⟨[], rfl⟩
    | succ n ih =>
      obtain ⟨cycles, hc⟩ := ih
      refine ⟨cycles ++ [mainCycle users m (envs n)], ?_⟩
      simp [runMain, hc, mainCycle_escaped_none]

/-- Claim C9, witness: a concrete fatal startup has non-zero status, and a
concrete three-iteration run over failing cycles is still looping. -/
theorem claim9_loop_never_exits_witness :
    (startProcess "" "set" ParseResult.nonArray = .fatal 1 0 ∧ (1 : Nat) ≠ 0) ∧
    ∃ cycles, runMain [sampleUser] 10 (fun _ => cycleEnvLaunchFail) 3 = .looping cycles :=
  ⟨⟨rfl, claim9_loop_never_exits.1 "" "set" ParseResult.nonArray 1 0 rfl⟩,
   claim9_loop_never_exits.2 [sampleUser] 10 (fun _ => cycleEnvLaunchFail) 3⟩

end LmdNotifier
